import Mathlib

/-!
Verification development for the docusaurus-plugin-git-docs-sync
synchronization engine.  The definitions below are shallow embeddings of
the TypeScript sources: src/retry-manager.ts (RetryManager, CircuitBreaker),
src/errors.ts (ErrorCode, GitSyncError, ErrorHandler), src/sync-queue.ts
(SyncQueue, DebouncedSyncQueue), src/git-sync-manager.ts (pull,
syncBidirectional, performSync routing), src/webhook-server-improved.ts
(handleWebhook, verifySignature) and src/webhook-queue.ts (WebhookQueue).
Theorems about these definitions follow after all definitions.
-/

deriving instance DecidableEq for Except

namespace GitDocsSync

/-- JS String.prototype.toLowerCase restricted to the ASCII range used by the
error messages under study. -/
def strToLower (s : String) : String :=
  String.mk (s.data.map Char.toLower)

/-- Auxiliary recursion for strIncludes: does the character list contain the
pattern as a contiguous run. -/
def strIncludesAux (pat : List Char) : List Char → Bool
  | [] => pat.isEmpty
  | c :: cs => pat.isPrefixOf (c :: cs) || strIncludesAux pat cs

/-- JS String.prototype.includes. -/
def strIncludes (s pat : String) : Bool :=
  strIncludesAux pat.data s.data

/-- JS String.prototype.endsWith. -/
def strEndsWith (s pat : String) : Bool :=
  pat.data.isSuffixOf s.data

/-! ## Error taxonomy (src/errors.ts) -/

/-- ErrorCode enum from src/errors.ts. -/
inductive ErrorCode where
  | INVALID_CONFIG
  | MISSING_CREDENTIALS
  | INVALID_CREDENTIALS
  | GIT_INIT_FAILED
  | GIT_REMOTE_FAILED
  | GIT_PULL_FAILED
  | GIT_PUSH_FAILED
  | GIT_COMMIT_FAILED
  | GIT_MERGE_CONFLICT
  | NETWORK_ERROR
  | AUTHENTICATION_FAILED
  | REMOTE_NOT_FOUND
  | PATH_NOT_FOUND
  | PERMISSION_DENIED
  | DISK_FULL
  | WEBHOOK_START_FAILED
  | WEBHOOK_VALIDATION_FAILED
  | SYNC_IN_PROGRESS
  | UNKNOWN_ERROR
  | CIRCUIT_BREAKER_OPEN
  deriving DecidableEq, Repr

/-- GitSyncError: code, message and the isRecoverable flag (details omitted,
they are only carried for logging). -/
structure GitSyncError where
  code : ErrorCode
  message : String
  isRecoverable : Bool
  deriving DecidableEq, Repr

/-- An error value thrown by an operation: either already a GitSyncError
(instanceof branch of ErrorHandler.handle) or a raw JS error carrying only a
message. -/
inductive ThrownError where
  | gitSync (e : GitSyncError)
  | raw (message : String)
  deriving DecidableEq, Repr

/-- The message of a thrown error (JS error.message). -/
def ThrownError.message : ThrownError → String
  | .gitSync e => e.message
  | .raw m => m

/-- ErrorHandler.handle from src/errors.ts: classify an arbitrary thrown
error into a GitSyncError.  The branch structure mirrors the source
string-matching chain on the lowercased message; the truthiness test
`if (error.message)` is false exactly for the empty message. -/
def ErrorHandler.handle : ThrownError → GitSyncError
  | .gitSync e => e
  | .raw msg =>
    if msg ≠ "" then
      let m := strToLower msg
      if strIncludes m "authentication failed" ||
         strIncludes m "invalid username or password" ||
         (strIncludes m "permission denied" &&
          (strIncludes m "git" || strIncludes m "remote")) then
        ⟨.AUTHENTICATION_FAILED,
          "Git authentication failed. Please check your credentials.", false⟩
      else if strIncludes m "could not resolve host" ||
              strIncludes m "network is unreachable" ||
              strIncludes m "connection refused" then
        ⟨.NETWORK_ERROR, "Network error occurred while syncing.", true⟩
      else if strIncludes m "repository not found" ||
              strIncludes m "does not exist" then
        ⟨.REMOTE_NOT_FOUND, "Remote repository not found.", false⟩
      else if strIncludes m "merge conflict" ||
              strIncludes m "automatic merge failed" then
        ⟨.GIT_MERGE_CONFLICT,
          "Merge conflict detected. Manual resolution required.", false⟩
      else if strIncludes m "enoent" || strIncludes m "no such file" then
        ⟨.PATH_NOT_FOUND, "Path not found.", true⟩
      else if strIncludes m "eacces" || strIncludes m "permission denied" then
        ⟨.PERMISSION_DENIED, "Permission denied accessing file system.", false⟩
      else if strIncludes m "enospc" || strIncludes m "no space left" then
        ⟨.DISK_FULL, "Disk space full.", false⟩
      else if strIncludes m "spawn eio" || strIncludes m "spawn EIO" then
        ⟨.UNKNOWN_ERROR,
          "Process spawn error (EIO). This often occurs in Docker environments.",
          false⟩
      else
        ⟨.UNKNOWN_ERROR, msg, true⟩
    else
      ⟨.UNKNOWN_ERROR, "An unknown error occurred.", true⟩

/-- ErrorHandler.shouldRetry from src/errors.ts. -/
def ErrorHandler.shouldRetry (e : GitSyncError) : Bool :=
  e.isRecoverable &&
    (e.code = ErrorCode.NETWORK_ERROR ||
     e.code = ErrorCode.GIT_PULL_FAILED ||
     e.code = ErrorCode.GIT_PUSH_FAILED)

/-! ## RetryManager (src/retry-manager.ts) -/

/-- Effective retry options after merging defaults and overrides. -/
structure RetryOptions where
  maxRetries : Nat
  initialDelay : Nat
  maxDelay : Nat
  backoffFactor : Nat
  deriving DecidableEq, Repr

/-- DEFAULT_RETRY_OPTIONS from src/retry-manager.ts. -/
def DEFAULT_RETRY_OPTIONS : RetryOptions := ⟨3, 1000, 30000, 2⟩

/-- Trace of one executeWithRetry run: final result, how many times the
operation was invoked, and the backoff delays slept between attempts. -/
structure RetryTrace (A : Type) where
  result : Except GitSyncError A
  invocations : Nat
  delays : List Nat

/-- The backoff delay computed after attempt number a:
min(initialDelay * backoffFactor^attempt, maxDelay). -/
def backoffDelay (opts : RetryOptions) (a : Nat) : Nat :=
  min (opts.initialDelay * opts.backoffFactor ^ a) opts.maxDelay

/-- The loop body of RetryManager.executeWithRetry, starting at a given
attempt index with the given number of loop iterations remaining
(fuel = maxRetries + 1 - attempt at every call site).  The operation is a
function of the attempt index so that distinct attempts may observe distinct
outcomes.  The fuel-0 branch corresponds to the dead throw after the loop. -/
def retryGo (opts : RetryOptions) (op : Nat → Except ThrownError A)
    (attempt : Nat) : Nat → RetryTrace A
  | 0 => ⟨.error ⟨.UNKNOWN_ERROR, "failed after retries", true⟩, 0, []⟩
  | fuel + 1 =>
    match op attempt with
    | .ok a => ⟨.ok a, 1, []⟩
    | .error e =>
      let lastError := ErrorHandler.handle e
      if ¬ ErrorHandler.shouldRetry lastError then
        ⟨.error lastError, 1, []⟩
      else if attempt = opts.maxRetries then
        ⟨.error lastError, 1, []⟩
      else
        let rest := retryGo opts op (attempt + 1) fuel
        ⟨rest.result, rest.invocations + 1, backoffDelay opts attempt :: rest.delays⟩

/-- RetryManager.executeWithRetry from src/retry-manager.ts with effective
options opts: the for-loop runs attempts 0 .. maxRetries. -/
def executeWithRetry (opts : RetryOptions) (op : Nat → Except ThrownError A) :
    RetryTrace A :=
  retryGo opts op 0 (opts.maxRetries + 1)

/-! ## CircuitBreaker (src/retry-manager.ts) -/

/-- The three circuit states CLOSED / OPEN / HALF_OPEN. -/
inductive CBStatus where
  | closed
  | opened
  | halfOpen
  deriving DecidableEq, Repr

/-- The mutable fields of a CircuitBreaker instance. -/
structure CircuitBreakerState where
  failureCount : Nat
  lastFailureTime : Option Nat
  state : CBStatus
  deriving DecidableEq, Repr

/-- Initial CircuitBreaker state: failureCount 0, no last failure, CLOSED. -/
def CircuitBreaker.initial : CircuitBreakerState := ⟨0, none, .closed⟩

/-- CircuitBreaker.shouldAttemptReset: lastFailureTime set and
Date.now() - lastFailureTime >= resetTimeout (computed over the integers,
as in JS arithmetic). -/
def CircuitBreaker.shouldAttemptReset (resetTimeout : Nat)
    (cb : CircuitBreakerState) (now : Nat) : Bool :=
  match cb.lastFailureTime with
  | none => false
  | some t => decide ((now : Int) - (t : Int) ≥ (resetTimeout : Int))

/-- CircuitBreaker.onSuccess. -/
def CircuitBreaker.onSuccess (cb : CircuitBreakerState) : CircuitBreakerState :=
  { cb with failureCount := 0, state := .closed }

/-- CircuitBreaker.onFailure at wall-clock time now. -/
def CircuitBreaker.onFailure (failureThreshold : Nat)
    (cb : CircuitBreakerState) (now : Nat) : CircuitBreakerState :=
  let fc := cb.failureCount + 1
  { failureCount := fc
    lastFailureTime := some now
    state := if fc ≥ failureThreshold then .opened else cb.state }

/-- Outcome of one CircuitBreaker.execute call: whether the wrapped operation
was invoked, whether the dedicated circuit-open error was thrown, whether the
call succeeded, and the successor state. -/
structure CBExec where
  invoked : Bool
  circuitOpenError : Bool
  succeeded : Bool
  next : CircuitBreakerState
  deriving DecidableEq, Repr

/-- CircuitBreaker.execute from src/retry-manager.ts.  opSucceeds is the
outcome the wrapped operation would have if invoked; now is Date.now(). -/
def CircuitBreaker.execute (failureThreshold resetTimeout : Nat)
    (cb : CircuitBreakerState) (now : Nat) (opSucceeds : Bool) : CBExec :=
  if cb.state = .opened ∧ ¬ CircuitBreaker.shouldAttemptReset resetTimeout cb now then
    ⟨false, true, false, cb⟩
  else
    let cb1 := if cb.state = .opened then { cb with state := .halfOpen } else cb
    if opSucceeds then
      ⟨true, false, true, CircuitBreaker.onSuccess cb1⟩
    else
      ⟨true, false, false, CircuitBreaker.onFailure failureThreshold cb1 now⟩

/-- Folding a sequence of (now, opSucceeds) calls through execute from the
initial state: the reachable states of one CircuitBreaker instance. -/
def CircuitBreaker.run (failureThreshold resetTimeout : Nat)
    (events : List (Nat × Bool)) : CircuitBreakerState :=
  events.foldl
    (fun cb ev => (CircuitBreaker.execute failureThreshold resetTimeout cb ev.1 ev.2).next)
    CircuitBreaker.initial

/-- The reachability invariant of CircuitBreakerState: CLOSED keeps
failureCount below the threshold, OPEN and HALF_OPEN record a failure time
and a count at or above the threshold, and HALF_OPEN is never left behind
between calls. -/
def CBInv (failureThreshold : Nat) (cb : CircuitBreakerState) : Prop :=
  (cb.state = .closed → cb.failureCount < failureThreshold) ∧
  (cb.state = .opened →
    cb.failureCount ≥ failureThreshold ∧ cb.lastFailureTime.isSome) ∧
  cb.state ≠ .halfOpen

/-! ## SyncQueue (src/sync-queue.ts) -/

/-- One pending item of SyncQueue (the operation closure itself is driven by
the exec oracle of the drain loop, keyed by id and retry count). -/
structure QueueItem where
  id : String
  priority : Int
  retries : Nat
  deriving DecidableEq, Repr

/-- The ids currently stored in the pending array. -/
def queueIds (q : List QueueItem) : List String :=
  q.map (fun it => it.id)

/-- The priority-ordered insertion of SyncQueue.enqueue: findIndex of the
first strictly lower priority, splice before it, else push at the end. -/
def insertByPriority (q : List QueueItem) (item : QueueItem) : List QueueItem :=
  match q.findIdx? (fun it => it.priority < item.priority) with
  | none => q ++ [item]
  | some i => q.take i ++ item :: q.drop i

/-- Result of SyncQueue.enqueue: the duplicate-id rejection leaves the
pending array untouched; acceptance yields the new pending array. -/
inductive EnqueueResult where
  | rejected (message : String)
  | accepted (queue : List QueueItem)
  deriving DecidableEq, Repr

/-- SyncQueue.enqueue from src/sync-queue.ts, acting on the pending array.
id is the caller-supplied explicit id (freshId stands for the generated
op-timestamp-random fallback when no explicit id is given). -/
def SyncQueue.enqueue (q : List QueueItem) (explicitId : Option String)
    (priority : Int) (freshId : String) : EnqueueResult :=
  let itemId := explicitId.getD freshId
  match explicitId with
  | some i =>
    if q.any (fun it => it.id = i) then
      .rejected ("Operation with ID " ++ i ++ " already in queue")
    else
      .accepted (insertByPriority q ⟨itemId, priority, 0⟩)
  | none => .accepted (insertByPriority q ⟨itemId, priority, 0⟩)

/-- Outcome of one invocation of a queued operation. -/
inductive ExecOutcome where
  | success
  | failure (message : String)
  deriving DecidableEq, Repr

/-- The events SyncQueue emits while draining; the promise of a caller settles
exactly when an opComplete (resolve) or opFailed (reject) event carrying its
item id is emitted. -/
inductive QueueEvent where
  | opStarted (id : String)
  | opComplete (id : String)
  | opFailed (id : String)
  | opRetry (id : String)
  | queueCleared
  deriving DecidableEq, Repr

/-- SyncQueue.clear: discards every pending item and emits only the
queue-cleared event — in particular no opComplete / opFailed event, so no
promise of a pending caller is ever settled by it. -/
def SyncQueue.clear (q : List QueueItem) : List QueueItem × List QueueEvent :=
  let _ := q.length
  ([], [.queueCleared])

/-- Termination measure of the drain loop: each pending item can be executed
at most maxRetries - retries more times. -/
def queueMeasure (maxRetries : Nat) (q : List QueueItem) : Nat :=
  q.foldr (fun it acc => (maxRetries - it.retries) + 1 + acc) 0

/-- The while-loop of SyncQueue.process from src/sync-queue.ts: shift the
head item, run it (exec gives the outcome of the invocation of a given id at
a given retry count), and emit events.  A spawn EIO failure emits the
operation-failed event for the failing caller, clears the rest of the queue
and stops; other failures retry the item at the front up to maxRetries. -/
def processLoop (exec : String → Nat → ExecOutcome) (maxRetries : Nat) :
    List QueueItem → List QueueEvent
  | [] => []
  | item :: rest =>
    match exec item.id item.retries with
    | .success =>
      .opStarted item.id :: .opComplete item.id :: processLoop exec maxRetries rest
    | .failure msg =>
      let errorMessage := strToLower msg
      let isSpawnError :=
        strIncludes errorMessage "spawn eio" || strIncludes errorMessage "spawn EIO"
      if isSpawnError then
        [.opStarted item.id, .opFailed item.id] ++ (SyncQueue.clear rest).2
      else if item.retries + 1 < maxRetries then
        .opStarted item.id :: .opRetry item.id ::
          processLoop exec maxRetries ({ item with retries := item.retries + 1 } :: rest)
      else
        .opStarted item.id :: .opFailed item.id :: processLoop exec maxRetries rest
  termination_by q => queueMeasure maxRetries q
  decreasing_by
  all_goals first
    | (simp [queueMeasure]; omega)
    | simp [queueMeasure]

/-! ## Two-queue concurrency model (src/git-sync-manager.ts, src/sync-queue.ts)

GitSyncManager owns two distinct SyncQueue instances: this.syncQueue for
timer / webhook / manual syncs and this.debouncedQueue (a DebouncedSyncQueue)
for file-change syncs.  Each instance has its own processing flag and its own
drain loop.  The model below captures, per instance, the pending array, the
processing flag, the number of active process() loop activations, and the id
of the operation the loop is currently awaiting; steps interleave the two
instances, reflecting that each drain loop suspends at the await of
item.operation(). -/

/-- The observable state of the drain machinery of one SyncQueue instance. -/
structure DrainState where
  queue : List String
  processing : Bool
  loops : Nat
  current : Option String
  deriving DecidableEq, Repr

/-- The idle SyncQueue instance as constructed. -/
def DrainState.initial : DrainState := ⟨[], false, 0, none⟩

/-- Steps of one SyncQueue instance (priorities elided: only the order of
mutation interleavings matters here).  beginProcess is the synchronous
check-then-set of this.processing at the top of process(); startOp is the
shift of the head item followed by the await of its operation; finishOp is
that await resolving; exitLoop is the loop observing an empty queue and
resetting this.processing. -/
inductive QueueStep : DrainState → DrainState → Prop where
  | enqueue (s : DrainState) (id : String) :
      QueueStep s ⟨s.queue ++ [id], s.processing, s.loops, s.current⟩
  | beginProcess (s : DrainState) :
      s.processing = false → s.queue ≠ [] →
      QueueStep s ⟨s.queue, true, s.loops + 1, s.current⟩
  | startOp (s : DrainState) (id : String) (rest : List String) :
      s.loops ≥ 1 → s.current = none → s.queue = id :: rest →
      QueueStep s ⟨rest, s.processing, s.loops, some id⟩
  | finishOp (s : DrainState) (id : String) :
      s.current = some id →
      QueueStep s ⟨s.queue, s.processing, s.loops, none⟩
  | exitLoop (s : DrainState) :
      s.loops ≥ 1 → s.current = none → s.queue = [] →
      QueueStep s ⟨s.queue, false, s.loops - 1, s.current⟩

/-- Combined state of the two queue instances of one GitSyncManager. -/
structure ManagerState where
  syncQ : DrainState
  debouncedQ : DrainState
  deriving DecidableEq, Repr

/-- Initial manager state: both queues idle. -/
def ManagerState.initial : ManagerState := ⟨DrainState.initial, DrainState.initial⟩

/-- Interleaved steps: either instance may advance independently. -/
inductive ManagerStep : ManagerState → ManagerState → Prop where
  | syncStep (s : ManagerState) (q : DrainState) :
      QueueStep s.syncQ q → ManagerStep s ⟨q, s.debouncedQ⟩
  | debouncedStep (s : ManagerState) (q : DrainState) :
      QueueStep s.debouncedQ q → ManagerStep s ⟨s.syncQ, q⟩

/-- Reachable manager states. -/
def ManagerReachable (s : ManagerState) : Prop :=
  Relation.ReflTransGen ManagerStep ManagerState.initial s

/-- Which queue instance performSync submits to (src/git-sync-manager.ts,
lines 248-254): the debounced queue for file-change events, the regular
queue for scheduled, webhook and manual syncs. -/
inductive QueueChoice where
  | syncQueue
  | debouncedQueue
  deriving DecidableEq, Repr

/-- The routing decision of GitSyncManager.performSync. -/
def performSyncQueueTarget (debounced : Bool) : QueueChoice :=
  if debounced then .debouncedQueue else .syncQueue

/-- A Git mutation sequence is executing on behalf of a queue instance when
its drain loop is awaiting an operation. -/
def mutationActive (d : DrainState) : Prop := d.current.isSome

/-- The invariant of one SyncQueue instance: the processing flag tracks
whether a drain loop is active, at most one loop activation exists, and an
operation only executes inside the single active loop. -/
def DrainInv (d : DrainState) : Prop :=
  (d.processing = true ↔ d.loops = 1) ∧ d.loops ≤ 1 ∧
  (d.current.isSome → d.loops = 1)

/-- The state reached by: enqueue a scheduled sync on syncQueue, enqueue a
debounced sync on debouncedQueue, start both drain loops, and let both
loops begin executing their head operation. -/
def bothRunningState : ManagerState :=
  ⟨⟨[], true, 1, some "sync-1700000000000"⟩, ⟨[], true, 1, some "debounced-sync"⟩⟩

/-! ## GitSyncManager.pull (src/git-sync-manager.ts, lines 257-343) -/

/-- The Git commands the sync engine issues against the working tree. -/
inductive GitCmd where
  | statusCmd
  | lsFiles
  | fetchCmd
  | stashPush
  | stashPop
  | revparse
  | pullCmd (options : List String)
  | addAll
  | commitCmd
  | pushCmd
  deriving DecidableEq, Repr

/-- The conflictResolution plugin option. -/
inductive ConflictResolution where
  | ours
  | theirs
  | manual
  deriving DecidableEq, Repr

/-- The wire string of the option. -/
def ConflictResolution.str : ConflictResolution → String
  | .ours => "ours"
  | .theirs => "theirs"
  | .manual => "manual"

/-- The pull option list built inside pull(). -/
def pullStrategyOptions : ConflictResolution → List String
  | .theirs => ["--rebase=false", "--strategy=recursive", "--strategy-option=theirs"]
  | .ours => ["--rebase=true", "--strategy-option=ours"]
  | .manual => ["--rebase=true"]

/-- Environment of one attempt of the inner operation of pull: the working-tree
status observed at entry, the outcome of the git pull command, and the
outcome of the n-th git stash pop invocation of this attempt. -/
structure PullEnv where
  hasLocalChanges : Bool
  conflictResolution : ConflictResolution
  branch : String
  pullOutcome : Except String Unit
  popOutcome : Nat → Except String Unit

/-- The catch block of the inner try of pull (src/git-sync-manager.ts, lines
317-338): if changes were stashed, attempt one more stash pop whose failure
is only logged; then translate a message mentioning a merge conflict into
the non-recoverable GIT_MERGE_CONFLICT error, otherwise rethrow.
popResult is consulted only for the log-suppression check. -/
def pullCatch (stashed : Bool) (popResult : Except String Unit)
    (err : ThrownError) : Except ThrownError Unit × List GitCmd :=
  let extra : List GitCmd := if stashed then [.stashPop] else []
  let _benignLog :=
    match popResult with
    | .ok _ => true
    | .error m => strIncludes m "No stash entries found"
  if strIncludes err.message "merge conflict" then
    (.error (.gitSync ⟨.GIT_MERGE_CONFLICT,
      "Merge conflict during pull operation", false⟩), extra)
  else
    (.error err, extra)

/-- One attempt of the inner operation of pull (the closure passed to
executeWithRetry inside GitSyncManager.pull): check status, stash if local
changes exist, run git pull, and restore the stash, distinguishing the
benign no-stash-entries pop failure from a pop conflict.  Returns the
result of the attempt together with the ordered trace of issued Git commands. -/
def pullAttempt (env : PullEnv) : Except ThrownError Unit × List GitCmd :=
  let stashed := env.hasLocalChanges
  let t1 : List GitCmd := .statusCmd :: (if stashed then [.stashPush] else [])
  let opts := pullStrategyOptions env.conflictResolution
  let t2 := t1 ++ [.pullCmd (["pull", "origin", env.branch] ++ opts)]
  match env.pullOutcome with
  | .error m =>
    let (r, extra) := pullCatch stashed (env.popOutcome 0) (.raw m)
    (r, t2 ++ extra)
  | .ok _ =>
    if stashed then
      match env.popOutcome 0 with
      | .ok _ => (.ok (), t2 ++ [.stashPop])
      | .error pmsg =>
        if strIncludes pmsg "No stash entries found" then
          (.ok (), t2 ++ [.stashPop])
        else
          let thrown : ThrownError :=
            if strIncludes pmsg "conflict" then
              .gitSync ⟨.GIT_MERGE_CONFLICT,
                "Conflict when applying local changes after pull", false⟩
            else
              .raw pmsg
          let (r, extra) := pullCatch stashed (env.popOutcome 1) thrown
          (r, t2 ++ [.stashPop] ++ extra)
    else
      (.ok (), t2)

/-! ## GitSyncManager.syncBidirectional (src/git-sync-manager.ts, 437-642) -/

/-- The placeholder sentinel string checked by hasPlaceholderFiles. -/
def PLACEHOLDER_SENTINEL : String := "DOCUSAURUS_PLACEHOLDER_DO_NOT_COMMIT"

/-- Whether the file path ends in .md or .mdx, as checked in the source. -/
def isMdxPath (p : String) : Bool :=
  strEndsWith p ".md" || strEndsWith p ".mdx"

/-- Environment of one syncBidirectional run: the two status snapshots, the
tracked-file list, the content of files on disk (none = file does not
exist), the local and remote refs, and the stash pop outcome. -/
structure SyncEnv where
  statusFiles : List String
  trackedFiles : List String
  fileContent : String → Option String
  localRef : String
  remoteRef : String
  branch : String
  conflictResolution : ConflictResolution
  popOutcome : Except String Unit
  statusFilesAfterPull : List String
  placeholderStateActive : Bool

/-- Whether a file on disk contains the placeholder sentinel
(fsSync.existsSync followed by readFileSync plus includes). -/
def fileHasPlaceholder (env : SyncEnv) (f : String) : Bool :=
  match env.fileContent f with
  | some c => strIncludes c PLACEHOLDER_SENTINEL
  | none => false

/-- GitSyncManager.hasPlaceholderFiles (lines 736-751): scan only the given
(changed) files, restricted to Markdown/MDX. -/
def hasPlaceholderFiles (env : SyncEnv) (files : List String) : Bool :=
  (files.filter isMdxPath).any (fileHasPlaceholder env)

/-- GitSyncManager.hasAnyPlaceholderFiles (lines 756-784): scan the union of
the changed files and all tracked files, restricted to Markdown/MDX. -/
def hasAnyPlaceholderFiles (env : SyncEnv) : Bool :=
  let filesToCheck := (env.statusFiles ++ env.trackedFiles).eraseDups
  (filesToCheck.filter isMdxPath).any (fileHasPlaceholder env)

/-- The pull option list built inside syncBidirectional (lines 478-489). -/
def syncPullOptions (branch : String) (res : ConflictResolution) : List String :=
  ["pull", "origin", branch] ++
    (if res ≠ .manual then
      ["--rebase=false", "--strategy=recursive",
        "--strategy-option=" ++ res.str]
    else
      ["--rebase=false"])

/-- GitSyncManager.syncBidirectional in the validateBeforeCommit = false
configuration (mdxValidator is null, the default): the broad placeholder
check of step 1 is computed but only feeds a warning log; the commit guard
of step 6 consults hasPlaceholderFiles on the changed files only.  Pull
errors of step 4 are swallowed (logged) by the inner catch.  Returns the
result and the ordered trace of issued Git commands. -/
def syncBidirectional (env : SyncEnv) : Except ThrownError Unit × List GitCmd :=
  let _warnOnly := env.placeholderStateActive || hasAnyPlaceholderFiles env
  let t1 : List GitCmd := [.statusCmd, .lsFiles, .fetchCmd, .statusCmd]
  let stashed := !env.statusFiles.isEmpty
  let t2 := t1 ++ (if stashed then [.stashPush] else [])
  let t3 := t2 ++ [.revparse, .revparse] ++
    (if env.localRef ≠ env.remoteRef then
      [.pullCmd (syncPullOptions env.branch env.conflictResolution)]
    else [])
  let popStep : Except ThrownError Unit × List GitCmd :=
    if stashed then
      match env.popOutcome with
      | .ok _ => (.ok (), t3 ++ [.stashPop])
      | .error pmsg =>
        if strIncludes pmsg "No stash entries found" then
          (.ok (), t3 ++ [.stashPop])
        else if strIncludes pmsg "conflict" then
          (.error (.gitSync ⟨.GIT_MERGE_CONFLICT,
            "Conflict when applying local changes after pull", false⟩),
            t3 ++ [.stashPop])
        else
          (.error (.raw pmsg), t3 ++ [.stashPop])
    else
      (.ok (), t3)
  match popStep with
  | (.error e, tr) => (.error e, tr)
  | (.ok _, tr) =>
    let t4 := tr ++ [.statusCmd]
    if !env.statusFilesAfterPull.isEmpty then
      if hasPlaceholderFiles env env.statusFilesAfterPull then
        (.ok (), t4)
      else
        (.ok (), t4 ++ [.addAll, .commitCmd, .pushCmd])
    else
      (.ok (), t4)

/-! ## WebhookQueue (src/webhook-queue.ts) and the webhook listener
(src/webhook-server-improved.ts) -/

/-- QueuedWebhook.status. -/
inductive WebhookStatus where
  | pending
  | processing
  | completed
  | failed
  deriving DecidableEq, Repr

/-- One stored webhook event (payload elided). -/
structure QueuedWebhook where
  id : String
  retries : Nat
  status : WebhookStatus
  deriving DecidableEq, Repr

/-- WebhookQueue.enqueue (src/webhook-queue.ts, lines 36-54): reject with
null at capacity, otherwise append a fresh pending event. -/
def WebhookQueue.enqueue (maxQueueSize : Nat) (queue : List QueuedWebhook)
    (freshId : String) : Option String × List QueuedWebhook :=
  if queue.length ≥ maxQueueSize then
    (none, queue)
  else
    (some freshId, queue ++ [⟨freshId, 0, .pending⟩])

/-- The observable HTTP response of the webhook endpoint. -/
structure HttpResponse where
  status : Nat
  body : String
  retryAfterHeader : Bool
  deriving DecidableEq, Repr

/-- Whether handling the request led to a sync being queued or scheduled. -/
inductive SyncDispatch where
  | notTriggered
  | queuedToIngest
  | scheduledImmediate
  deriving DecidableEq, Repr

/-- The crypto.timingSafeEqual primitive of Node: throws a RangeError when the byte lengths
differ, otherwise compares in constant time. -/
def timingSafeEqual (a b : String) : Except Unit Bool :=
  if a.utf8ByteSize ≠ b.utf8ByteSize then .error () else .ok (a = b)

/-- WebhookServer.verifyGitHubSignature (lines 394-398): hmacHex is the hex
digest of HMAC-SHA256 over the raw body with the configured secret (the
crypto oracle of this model). -/
def verifyGitHubSignature (hmacHex sig : String) : Except Unit Bool :=
  timingSafeEqual sig ("sha256=" ++ hmacHex)

/-- Listener configuration relevant to ingest handling. -/
structure WebhookServerCfg where
  secret : String
  queueEnabled : Bool
  maxQueueSize : Nat
  deriving DecidableEq, Repr

/-- One POST to the ingest path, as the handler observes it: whether the
body is valid JSON, whether the GitHub event header is present, the
X-Hub-Signature-256 header, and the outcome of the shouldProcessWebhook
filter check on the parsed payload. -/
structure WebhookRequest where
  bodyParses : Bool
  githubEventHeader : Bool
  sigHeader : Option String
  shouldProcess : Bool
  deriving DecidableEq, Repr

/-- WebhookServer.handleWebhook (lines 167-246) for the ingest path.
A JSON parse failure or an exception escaping the handler body (such as the
timingSafeEqual RangeError) lands in the catch that answers 400; a false
verification answers 401; a filtered event answers 200 Filtered; otherwise
the event is queued (200 with queue id, or 503 with a Retry-After hint when
WebhookQueue.enqueue returns null) or scheduled directly (200 OK).
Providers other than GitHub are elided (their requests carry no GitHub
event header and verify as false when a secret is set). -/
def handleWebhook (cfg : WebhookServerCfg) (req : WebhookRequest)
    (hmacHex : String) (queue : List QueuedWebhook) (freshId : String) :
    HttpResponse × SyncDispatch × List QueuedWebhook :=
  if ¬ req.bodyParses then
    (⟨400, "Bad request", false⟩, .notTriggered, queue)
  else
    let verification : Except Unit Bool :=
      if cfg.secret = "" then .ok true
      else if req.githubEventHeader then
        match req.sigHeader with
        | none => .ok false
        | some sig => verifyGitHubSignature hmacHex sig
      else .ok false
    match verification with
    | .error _ => (⟨400, "Bad request", false⟩, .notTriggered, queue)
    | .ok false => (⟨401, "Unauthorized", false⟩, .notTriggered, queue)
    | .ok true =>
      if ¬ req.shouldProcess then
        (⟨200, "Filtered", false⟩, .notTriggered, queue)
      else if cfg.queueEnabled then
        match WebhookQueue.enqueue cfg.maxQueueSize queue freshId with
        | (some _, q2) => (⟨200, "Queued", false⟩, .queuedToIngest, q2)
        | (none, q2) =>
          (⟨503, "Service temporarily unavailable - queue full", true⟩,
            .notTriggered, q2)
      else
        (⟨200, "OK", false⟩, .scheduledImmediate, queue)

/-! ## DebouncedSyncQueue (src/sync-queue.ts, lines 202-233) -/

/-- The debounce machinery: the pending operation candidate and the armed
timer, both tagged by the index of the enqueueDebounced call that set them.
The promise returned to call i can only be settled from inside the callback
of the timer armed by call i. -/
structure DebounceState where
  pending : Option Nat
  timer : Option Nat
  deriving DecidableEq, Repr

/-- Fresh DebouncedSyncQueue: no pending candidate, no timer. -/
def DebounceState.initial : DebounceState := ⟨none, none⟩

/-- enqueueDebounced, call number i within one debounce window: record
operation i as the pending candidate, clearTimeout the previously armed
timer (cancelling it, so the promise of the call that armed it can never
settle) and arm a fresh timer tagged i. -/
def enqueueDebouncedCall (s : DebounceState) (i : Nat) : DebounceState :=
  let _cancelled := s.timer
  ⟨some i, some i⟩

/-- n successive enqueueDebounced calls (numbered 0 .. n-1) within one
debounce window. -/
def debounceCalls (n : Nat) : DebounceState :=
  (List.range n).foldl enqueueDebouncedCall DebounceState.initial

/-- The quiet period elapsing: the single still-armed timer fires; its
callback submits the pending operation to the underlying SyncQueue under
the fixed id debounced-sync and settles the promise of the call that armed
it with the outcome of that enqueue.  Returns
(index of the call whose promise settles, index of the operation enqueued),
or none when no timer is armed. -/
def fireDebounceTimer (s : DebounceState) : Option (Nat × Nat) :=
  match s.timer, s.pending with
  | some j, some p => some (j, p)
  | _, _ => none

/-! ## Concrete scenarios used by counterexamples and witnesses -/

/-- A pull attempt on a tree with local changes where the pull succeeds but
every stash pop reports a content conflict. -/
def pullPopConflictEnv : PullEnv where
  hasLocalChanges := true
  conflictResolution := .ours
  branch := "main"
  pullOutcome := .ok ()
  popOutcome := fun _ => .error "merge conflict in docs/intro.md"

/-- A sync run on a repository whose tracked (but unmodified) file
docs/generated.md still contains the placeholder sentinel while the only
changed file docs/intro.md is clean. -/
def trackedPlaceholderEnv : SyncEnv where
  statusFiles := ["docs/intro.md"]
  trackedFiles := ["docs/generated.md", "docs/intro.md"]
  fileContent := fun f =>
    if f = "docs/generated.md" then
      some "draft DOCUSAURUS_PLACEHOLDER_DO_NOT_COMMIT draft"
    else if f = "docs/intro.md" then
      some "hello docs"
    else
      none
  localRef := "abc123"
  remoteRef := "abc123"
  branch := "main"
  conflictResolution := .ours
  popOutcome := .ok ()
  statusFilesAfterPull := ["docs/intro.md"]
  placeholderStateActive := false

/-- A webhook listener with a configured secret and no ingest queue. -/
def demoWebhookCfg : WebhookServerCfg := ⟨"s3cretwebhook1234", false, 100⟩

/-- A 64-character hex digest standing for the HMAC-SHA256 of some body. -/
def demoHmacHex : String :=
  "0123456789abcdef0123456789abcdef0123456789abcdef0123456789abcdef"

/-- A valid-JSON GitHub request whose signature header is far too short to
be a sha256 digest. -/
def shortSigRequest : WebhookRequest where
  bodyParses := true
  githubEventHeader := true
  sigHeader := some "sha256=00"
  shouldProcess := true

/-! # Theorems -/

theorem retryGo_all_retryable
    {A : Type} (opts : RetryOptions) (op : Nat → Except ThrownError A)
    (errs : Nat → ThrownError)
    (hop : ∀ n, op n = .error (errs n))
    (hr : ∀ n, ErrorHandler.shouldRetry (ErrorHandler.handle (errs n)) = true) :
    ∀ fuel a, a + fuel = opts.maxRetries + 1 → 1 ≤ fuel →
      retryGo opts op a fuel =
        ⟨.error (ErrorHandler.handle (errs opts.maxRetries)), fuel,
          (List.range' a (fuel - 1)).map (backoffDelay opts)⟩ := by
  intro fuel
  induction fuel with
  | zero => intro a _ h2; exact absurd h2 (by omega)
  | succ k ih =>
    intro a hsum _
    by_cases ha : a = opts.maxRetries
    · have hk : k = 0 := by omega
      subst hk
      subst ha
      simp [retryGo, hop opts.maxRetries, hr opts.maxRetries]
    · obtain ⟨m, hm⟩ : ∃ m, k = m + 1 := ⟨k - 1, by omega⟩
      simp only [retryGo]
      rw [hop a]
      simp only [hr a]
      simp [ha]
      rw [ih (a + 1) (by omega) (by omega)]
      subst hm
      simp [List.range']

/-- C3: with effective options, an operation that always fails with an error
classified as non-retryable is invoked exactly once and raises the
classified error; one that always fails with retryable errors is invoked
exactly maxRetries + 1 times, the delay after attempt a is
min(initialDelay * backoffFactor^a, maxDelay), and the last classified
error is raised. -/
theorem executeWithRetry_invocations
    {A : Type} (opts : RetryOptions) (op : Nat → Except ThrownError A)
    (errs : Nat → ThrownError)
    (hop : ∀ n, op n = .error (errs n)) :
    (ErrorHandler.shouldRetry (ErrorHandler.handle (errs 0)) = false →
      executeWithRetry opts op = ⟨.error (ErrorHandler.handle (errs 0)), 1, []⟩) ∧
    ((∀ n, ErrorHandler.shouldRetry (ErrorHandler.handle (errs n)) = true) →
      executeWithRetry opts op =
        ⟨.error (ErrorHandler.handle (errs opts.maxRetries)), opts.maxRetries + 1,
          (List.range opts.maxRetries).map (backoffDelay opts)⟩) := by
  constructor
  · intro hnr
    simp [executeWithRetry, retryGo, hop 0, hnr]
  · intro hr
    have h := retryGo_all_retryable opts op errs hop hr (opts.maxRetries + 1) 0
      (by omega) (by omega)
    rw [executeWithRetry, h]
    simp [List.range_eq_range']

/-- Witness for executeWithRetry_invocations: a non-recoverable merge
conflict is attempted once; a connection-refused network error with
maxRetries = 2 is attempted three times. -/
theorem executeWithRetry_invocations_witness :
    executeWithRetry ⟨2, 10, 15, 2⟩
        (fun _ => (Except.error (ThrownError.gitSync
          ⟨.GIT_MERGE_CONFLICT, "conflict", false⟩) : Except ThrownError Unit)) =
      ⟨.error (ErrorHandler.handle (ThrownError.gitSync
        ⟨.GIT_MERGE_CONFLICT, "conflict", false⟩)), 1, []⟩ ∧
    executeWithRetry ⟨2, 10, 15, 2⟩
        (fun _ => (Except.error (ThrownError.raw "connection refused") :
          Except ThrownError Unit)) =
      ⟨.error (ErrorHandler.handle (ThrownError.raw "connection refused")), 2 + 1,
        (List.range 2).map (backoffDelay ⟨2, 10, 15, 2⟩)⟩ :=
  ⟨(executeWithRetry_invocations ⟨2, 10, 15, 2⟩ _
      (fun _ => ThrownError.gitSync ⟨.GIT_MERGE_CONFLICT, "conflict", false⟩)
      (fun _ => rfl)).1 (by decide),
   (executeWithRetry_invocations ⟨2, 10, 15, 2⟩ _
      (fun _ => ThrownError.raw "connection refused")
      (fun _ => rfl)).2 (fun _ => by decide)⟩

/-- C9: a WebhookQueue holding maxQueueSize events rejects the next enqueue
with null without evicting or replacing anything, and the listener then
answers 503 with a Retry-After hint. -/
theorem webhook_queue_full_503
    (cfg : WebhookServerCfg) (req : WebhookRequest) (hmacHex freshId : String)
    (queue : List QueuedWebhook)
    (hfull : queue.length = cfg.maxQueueSize) :
    WebhookQueue.enqueue cfg.maxQueueSize queue freshId = (none, queue) ∧
    (req.bodyParses = true → cfg.secret = "" → req.shouldProcess = true →
      cfg.queueEnabled = true →
      handleWebhook cfg req hmacHex queue freshId =
        (⟨503, "Service temporarily unavailable - queue full", true⟩,
          .notTriggered, queue)) := by
  have henq : WebhookQueue.enqueue cfg.maxQueueSize queue freshId = (none, queue) := by
    simp [WebhookQueue.enqueue, hfull]
  refine ⟨henq, ?_⟩
  intro h1 h2 h3 h4
  simp [handleWebhook, h1, h2, h3, h4, henq]

/-- Witness for webhook_queue_full_503 at a queue of two events with
maxQueueSize 2. -/
theorem webhook_queue_full_503_witness :
    WebhookQueue.enqueue 2
        [⟨"wh_1", 0, .pending⟩, ⟨"wh_2", 0, .pending⟩] "wh_3" =
      (none, [⟨"wh_1", 0, .pending⟩, ⟨"wh_2", 0, .pending⟩]) ∧
    handleWebhook ⟨"", true, 2⟩ ⟨true, true, none, true⟩ demoHmacHex
        [⟨"wh_1", 0, .pending⟩, ⟨"wh_2", 0, .pending⟩] "wh_3" =
      (⟨503, "Service temporarily unavailable - queue full", true⟩,
        .notTriggered, [⟨"wh_1", 0, .pending⟩, ⟨"wh_2", 0, .pending⟩]) := by
  have h := webhook_queue_full_503 ⟨"", true, 2⟩ ⟨true, true, none, true⟩
    demoHmacHex "wh_3" [⟨"wh_1", 0, .pending⟩, ⟨"wh_2", 0, .pending⟩] (by decide)
  exact ⟨h.1, h.2 rfl rfl rfl rfl⟩

theorem debounceCalls_last (n : Nat) (h : 0 < n) :
    debounceCalls n = ⟨some (n - 1), some (n - 1)⟩ := by
  obtain ⟨k, rfl⟩ : ∃ k, n = k + 1 := ⟨n - 1, by omega⟩
  rw [debounceCalls, List.range_succ, List.foldl_append]
  simp [enqueueDebouncedCall]

/-- C10: among two or more enqueueDebounced calls inside one debounce
window, only the promise of the last call is settled when the timer fires, and
it settles with the outcome of the single (latest) operation that reaches
the underlying queue; the promise of every earlier call is never resolved
or rejected because its timer was cancelled. -/
theorem debounce_last_call_wins (n : Nat) (h : 2 ≤ n) :
    fireDebounceTimer (debounceCalls n) = some (n - 1, n - 1) ∧
    (∀ i j p, i < n - 1 → fireDebounceTimer (debounceCalls n) = some (j, p) →
      j ≠ i ∧ p ≠ i) := by
  have hd := debounceCalls_last n (by omega)
  rw [hd]
  refine ⟨rfl, ?_⟩
  intro i j p hi hfire
  simp [fireDebounceTimer] at hfire
  omega

/-- Witness for debounce_last_call_wins at three calls in one window. -/
theorem debounce_last_call_wins_witness :
    2 ≤ 3 ∧ fireDebounceTimer (debounceCalls 3) = some (3 - 1, 3 - 1) :=
  ⟨by decide, (debounce_last_call_wins 3 (by decide)).1⟩

theorem insertByPriority_perm (q : List QueueItem) (item : QueueItem) :
    (insertByPriority q item).Perm (item :: q) := by
  unfold insertByPriority
  cases q.findIdx? (fun it => it.priority < item.priority) with
  | none => exact List.perm_append_singleton item q
  | some i =>
    have h1 : (q.take i ++ item :: q.drop i).Perm (item :: (q.take i ++ q.drop i)) :=
      List.perm_middle
    rw [List.take_append_drop] at h1
    exact h1

/-- C4: an enqueue whose explicit id is still present in the pending array is
rejected with an error and the array is untouched; when the id is absent
(in particular after the original operation has terminally resolved and
left the array) the enqueue is accepted, the id then occurs exactly once,
and distinctness of queued ids is preserved. -/
theorem enqueue_duplicate_id (q : List QueueItem) (i : String) (p : Int)
    (fresh : String) :
    (q.any (fun it => it.id = i) = true →
      SyncQueue.enqueue q (some i) p fresh =
        .rejected ("Operation with ID " ++ i ++ " already in queue")) ∧
    (q.any (fun it => it.id = i) = false →
      SyncQueue.enqueue q (some i) p fresh =
        .accepted (insertByPriority q ⟨i, p, 0⟩) ∧
      (queueIds (insertByPriority q ⟨i, p, 0⟩)).count i = 1 ∧
      ((queueIds q).Nodup → (queueIds (insertByPriority q ⟨i, p, 0⟩)).Nodup)) := by
  constructor
  · intro hany
    simp [SyncQueue.enqueue, hany]
  · intro hany
    have hmem : i ∉ queueIds q := by
      simp only [List.any_eq_false, decide_eq_true_eq] at hany
      simp only [queueIds, List.mem_map]
      rintro ⟨it, hit, hid⟩
      exact hany it hit hid
    have hid : (queueIds (insertByPriority q ⟨i, p, 0⟩)).Perm (i :: queueIds q) := by
      simpa [queueIds] using (insertByPriority_perm q ⟨i, p, 0⟩).map (fun it => it.id)
    refine ⟨by simp [SyncQueue.enqueue, hany], ?_, ?_⟩
    · rw [hid.count_eq, List.count_cons_self, List.count_eq_zero.mpr hmem]
    · intro hnd
      exact hid.nodup_iff.mpr (List.nodup_cons.mpr ⟨hmem, hnd⟩)

/-- Witness for enqueue_duplicate_id: a duplicate of the queued id sync-1 is
rejected; on an empty pending array the same id is accepted. -/
theorem enqueue_duplicate_id_witness :
    (SyncQueue.enqueue [⟨"sync-1", 0, 0⟩] (some "sync-1") 0 "op-7" =
      .rejected ("Operation with ID " ++ "sync-1" ++ " already in queue")) ∧
    (SyncQueue.enqueue [] (some "sync-1") 0 "op-8" =
      .accepted (insertByPriority [] ⟨"sync-1", 0, 0⟩) ∧
      (queueIds (insertByPriority [] ⟨"sync-1", 0, 0⟩)).count "sync-1" = 1 ∧
      ((queueIds ([] : List QueueItem)).Nodup →
        (queueIds (insertByPriority [] ⟨"sync-1", 0, 0⟩)).Nodup)) :=
  ⟨(enqueue_duplicate_id [⟨"sync-1", 0, 0⟩] "sync-1" 0 "op-7").1 (by decide),
   (enqueue_duplicate_id [] "sync-1" 0 "op-8").2 (by decide)⟩

/-- C5: when the operation just shifted off the queue fails with a spawn EIO
fault, the drain loop rejects exactly that caller (one operation-failed
event), clears the whole remaining queue and ceases processing: no event is
ever emitted for any of the cleared items, so the promises of their callers are
never resolved or rejected — and clear() itself discards all pending items
while emitting no completion or failure event at all. -/
theorem spawn_error_clears_queue
    (exec : String → Nat → ExecOutcome) (maxRetries : Nat)
    (item : QueueItem) (rest : List QueueItem) (msg : String)
    (hfail : exec item.id item.retries = .failure msg)
    (hspawn : strIncludes (strToLower msg) "spawn eio" = true) :
    processLoop exec maxRetries (item :: rest) =
      [.opStarted item.id, .opFailed item.id, .queueCleared] ∧
    (SyncQueue.clear rest).1 = [] ∧
    (∀ id2, QueueEvent.opComplete id2 ∉ (SyncQueue.clear rest).2 ∧
      QueueEvent.opFailed id2 ∉ (SyncQueue.clear rest).2) ∧
    (∀ j, j ∈ rest →
      QueueEvent.opComplete j.id ∉ processLoop exec maxRetries (item :: rest) ∧
      (j.id ≠ item.id →
        QueueEvent.opFailed j.id ∉ processLoop exec maxRetries (item :: rest))) := by
  have hloop : processLoop exec maxRetries (item :: rest) =
      [.opStarted item.id, .opFailed item.id, .queueCleared] := by
    rw [processLoop, hfail]
    simp [hspawn, SyncQueue.clear]
  refine ⟨hloop, rfl, ?_, ?_⟩
  · intro id2
    simp [SyncQueue.clear]
  · intro j _
    rw [hloop]
    refine ⟨by simp, ?_⟩
    intro hne
    simp [hne]

/-- Witness for spawn_error_clears_queue: a two-element queue whose head
operation fails with spawn EIO. -/
theorem spawn_error_clears_queue_witness :
    strIncludes (strToLower "Error: spawn EIO") "spawn eio" = true ∧
    processLoop
        (fun id _ => if id = "sync-1" then ExecOutcome.failure "Error: spawn EIO"
          else ExecOutcome.success)
        3 [⟨"sync-1", 0, 0⟩, ⟨"sync-2", 1, 0⟩] =
      [.opStarted "sync-1", .opFailed "sync-1", .queueCleared] :=
  ⟨by decide,
   (spawn_error_clears_queue
      (fun id _ => if id = "sync-1" then ExecOutcome.failure "Error: spawn EIO"
        else ExecOutcome.success)
      3 ⟨"sync-1", 0, 0⟩ [⟨"sync-2", 1, 0⟩] "Error: spawn EIO"
      (by decide) (by decide)).1⟩

theorem CBInv_execute (thr rt : Nat) (cb : CircuitBreakerState) (now : Nat)
    (b : Bool) (h0 : 0 < thr) (hinv : CBInv thr cb) :
    CBInv thr (CircuitBreaker.execute thr rt cb now b).next := by
  obtain ⟨fc, lft, st⟩ := cb
  obtain ⟨hc, ho, hh⟩ := hinv
  cases st with
  | halfOpen => exact absurd rfl hh
  | closed =>
    have hfc : fc < thr := hc rfl
    cases b with
    | true =>
      simp [CircuitBreaker.execute, CircuitBreaker.onSuccess, CBInv, h0]
    | false =>
      simp only [CircuitBreaker.execute, CircuitBreaker.onFailure, CBInv]
      split_ifs with hge <;> simp_all <;> omega
  | opened =>
    obtain ⟨hfcge, _⟩ := ho rfl
    by_cases hsar :
        CircuitBreaker.shouldAttemptReset rt ⟨fc, lft, .opened⟩ now = true
    · cases b with
      | true =>
        simp [CircuitBreaker.execute, hsar, CircuitBreaker.onSuccess, CBInv, h0]
      | false =>
        simp only [CircuitBreaker.execute, hsar, CircuitBreaker.onFailure, CBInv]
        split_ifs with hge <;> simp_all <;> omega
    · simp only [Bool.not_eq_true] at hsar
      simp only [CircuitBreaker.execute, hsar, CBInv]
      simp_all

theorem CBInv_run (thr rt : Nat) (h0 : 0 < thr) (events : List (Nat × Bool)) :
    CBInv thr (CircuitBreaker.run thr rt events) := by
  have hstep : ∀ (l : List (Nat × Bool)) (cb : CircuitBreakerState), CBInv thr cb →
      CBInv thr (l.foldl
        (fun c ev => (CircuitBreaker.execute thr rt c ev.1 ev.2).next) cb) := by
    intro l
    induction l with
    | nil => intro cb h; exact h
    | cons e t ih =>
      intro cb h
      exact ih _ (CBInv_execute thr rt cb e.1 e.2 h0 h)
  have hinit : CBInv thr CircuitBreaker.initial := by
    refine ⟨fun _ => h0, fun h => ?_, by simp [CircuitBreaker.initial]⟩
    simp [CircuitBreaker.initial] at h
  exact hstep events _ hinit

/-- C2: a CircuitBreaker reachable through any call sequence starts CLOSED
with failureCount 0; from CLOSED a failure increments failureCount and trips
to OPEN exactly when the count reaches the threshold; while OPEN with less
than resetTimeout elapsed since the last failure, execute reports the
dedicated circuit-open error without invoking the operation and leaves the
state untouched; once resetTimeout has elapsed the one call is let through
(HALF_OPEN): its success resets to CLOSED with failureCount 0, its failure
returns to OPEN with the cooldown clock reset to now, and either way the
breaker never rests in HALF_OPEN. -/
theorem circuit_breaker_lifecycle (thr rt : Nat) (h0 : 0 < thr)
    (events : List (Nat × Bool)) (cb : CircuitBreakerState)
    (hcb : cb = CircuitBreaker.run thr rt events) (now : Nat) :
    CircuitBreaker.run thr rt [] = ⟨0, none, .closed⟩ ∧
    (cb.state = .closed →
      (CircuitBreaker.execute thr rt cb now false).invoked = true ∧
      (CircuitBreaker.execute thr rt cb now false).next.failureCount =
        cb.failureCount + 1 ∧
      ((CircuitBreaker.execute thr rt cb now false).next.state = .opened ↔
        cb.failureCount + 1 = thr)) ∧
    (∀ t b, cb.state = .opened → cb.lastFailureTime = some t →
      (now : Int) - (t : Int) < (rt : Int) →
      (CircuitBreaker.execute thr rt cb now b).invoked = false ∧
      (CircuitBreaker.execute thr rt cb now b).circuitOpenError = true ∧
      (CircuitBreaker.execute thr rt cb now b).next = cb) ∧
    (∀ t, cb.state = .opened → cb.lastFailureTime = some t →
      (now : Int) - (t : Int) ≥ (rt : Int) →
      ((CircuitBreaker.execute thr rt cb now true).invoked = true ∧
        (CircuitBreaker.execute thr rt cb now true).next.state = .closed ∧
        (CircuitBreaker.execute thr rt cb now true).next.failureCount = 0) ∧
      ((CircuitBreaker.execute thr rt cb now false).invoked = true ∧
        (CircuitBreaker.execute thr rt cb now false).next.state = .opened ∧
        (CircuitBreaker.execute thr rt cb now false).next.lastFailureTime =
          some now)) := by
  have hinv : CBInv thr cb := hcb ▸ CBInv_run thr rt h0 events
  clear hcb
  obtain ⟨fc, lft, st⟩ := cb
  obtain ⟨hc, ho, hh⟩ := hinv
  refine ⟨rfl, ?_, ?_, ?_⟩
  · intro hst
    cases st with
    | opened => exact absurd hst (by simp)
    | halfOpen => exact absurd hst (by simp)
    | closed =>
      have hfc : fc < thr := hc rfl
      simp only [CircuitBreaker.execute, CircuitBreaker.onFailure]
      refine ⟨by split_ifs <;> simp_all, by split_ifs <;> simp_all, ?_⟩
      split_ifs with h1 h2 <;> simp_all <;> omega
  · intro t b hst ht hlt
    cases st with
    | closed => exact absurd hst (by simp)
    | halfOpen => exact absurd hst (by simp)
    | opened =>
      have ht2 : lft = some t := ht
      have hsar :
          CircuitBreaker.shouldAttemptReset rt ⟨fc, lft, .opened⟩ now = false := by
        simp only [ht2, CircuitBreaker.shouldAttemptReset]
        simp
        omega
      simp [CircuitBreaker.execute, hsar]
  · intro t hst ht hge
    cases st with
    | closed => exact absurd hst (by simp)
    | halfOpen => exact absurd hst (by simp)
    | opened =>
      obtain ⟨hfcge, _⟩ := ho rfl
      have hfcge2 : fc ≥ thr := hfcge
      have ht2 : lft = some t := ht
      have hsar :
          CircuitBreaker.shouldAttemptReset rt ⟨fc, lft, .opened⟩ now = true := by
        simp only [ht2, CircuitBreaker.shouldAttemptReset]
        simp
        omega
      have hthr : fc + 1 ≥ thr := by omega
      simp [CircuitBreaker.execute, hsar, CircuitBreaker.onSuccess,
        CircuitBreaker.onFailure, hthr]

/-- Witness for circuit_breaker_lifecycle: threshold 2, resetTimeout 10,
two failures at times 0 and 1 reach OPEN; at time 5 the breaker blocks,
at time 20 a successful probe closes it again. -/
theorem circuit_breaker_lifecycle_witness :
    (CircuitBreaker.run 2 10 [(0, false), (1, false)]).state = .opened ∧
    (CircuitBreaker.execute 2 10
        (CircuitBreaker.run 2 10 [(0, false), (1, false)]) 5 true).invoked
      = false ∧
    (CircuitBreaker.execute 2 10
        (CircuitBreaker.run 2 10 [(0, false), (1, false)]) 5 true).circuitOpenError
      = true ∧
    (CircuitBreaker.execute 2 10
        (CircuitBreaker.run 2 10 [(0, false), (1, false)]) 20 true).next.state
      = .closed ∧
    (CircuitBreaker.execute 2 10
        (CircuitBreaker.run 2 10 [(0, false), (1, false)]) 20 true).next.failureCount
      = 0 := by
  have h5 := circuit_breaker_lifecycle 2 10 (by decide) [(0, false), (1, false)]
    (CircuitBreaker.run 2 10 [(0, false), (1, false)]) rfl 5
  have h20 := circuit_breaker_lifecycle 2 10 (by decide) [(0, false), (1, false)]
    (CircuitBreaker.run 2 10 [(0, false), (1, false)]) rfl 20
  have hblk := h5.2.2.1 1 true (by decide) (by decide) (by decide)
  have helap := h20.2.2.2 1 (by decide) (by decide) (by decide)
  exact ⟨by decide, hblk.1, hblk.2.1, helap.1.2.1, helap.1.2.2⟩

/-- C6 counterexample: with local changes, a successful pull and a stash pop
that reports a content conflict, the attempt issues two stash-pop attempts,
not exactly one — the merge-conflict error thrown for the first pop lands in
the outer catch, which pops again before rethrowing. -/
theorem pull_double_pop_counterexample :
    pullPopConflictEnv.hasLocalChanges = true ∧
    (pullAttempt pullPopConflictEnv).2.count .stashPop = 2 ∧
    ¬ ((pullAttempt pullPopConflictEnv).2.count .stashPop = 1) ∧
    (pullAttempt pullPopConflictEnv).1 = .error (.gitSync ⟨.GIT_MERGE_CONFLICT,
      "Conflict when applying local changes after pull", false⟩) := by
  decide

/-- C6 (amended): per attempt of the inner operation of pull (a pull run may
retry the whole attempt): no local changes means no stash push and no pop;
with local changes exactly one stash push is issued and exactly one pop
attempt follows when the pull fails or when the first pop succeeds or fails
benignly (no stash entries, in which case the attempt still succeeds); a
first-pop conflict after a successful pull triggers one further pop attempt
in the error path and raises the non-recoverable merge-conflict error. -/
theorem pull_stash_discipline (hasLC : Bool) (cr : ConflictResolution)
    (br : String) (po : Except String Unit) (pop : Nat → Except String Unit) :
    (hasLC = false →
      (pullAttempt ⟨hasLC, cr, br, po, pop⟩).2.count .stashPush = 0 ∧
      (pullAttempt ⟨hasLC, cr, br, po, pop⟩).2.count .stashPop = 0) ∧
    (hasLC = true →
      (pullAttempt ⟨hasLC, cr, br, po, pop⟩).2.count .stashPush = 1 ∧
      (∀ m, po = .error m →
        (pullAttempt ⟨hasLC, cr, br, po, pop⟩).2.count .stashPop = 1) ∧
      (po = .ok () → pop 0 = .ok () →
        (pullAttempt ⟨hasLC, cr, br, po, pop⟩).2.count .stashPop = 1 ∧
        (pullAttempt ⟨hasLC, cr, br, po, pop⟩).1 = .ok ()) ∧
      (∀ m, po = .ok () → pop 0 = .error m →
        strIncludes m "No stash entries found" = true →
        (pullAttempt ⟨hasLC, cr, br, po, pop⟩).2.count .stashPop = 1 ∧
        (pullAttempt ⟨hasLC, cr, br, po, pop⟩).1 = .ok ()) ∧
      (∀ m, po = .ok () → pop 0 = .error m →
        strIncludes m "No stash entries found" = false →
        strIncludes m "conflict" = true →
        (pullAttempt ⟨hasLC, cr, br, po, pop⟩).2.count .stashPop = 2 ∧
        (pullAttempt ⟨hasLC, cr, br, po, pop⟩).1 = .error (.gitSync
          ⟨.GIT_MERGE_CONFLICT,
            "Conflict when applying local changes after pull", false⟩))) := by
  constructor
  · intro h
    subst h
    cases po with
    | ok u => simp [pullAttempt]
    | error m =>
      simp [pullAttempt, pullCatch]
      split_ifs <;> simp
  · intro h
    subst h
    refine ⟨?_, ?_, ?_, ?_, ?_⟩
    · cases po with
      | ok u =>
        cases hpop : pop 0 with
        | ok u2 => simp [pullAttempt, hpop]
        | error m =>
          by_cases hben : strIncludes m "No stash entries found" = true
          · simp [pullAttempt, hpop, hben]
          · simp only [Bool.not_eq_true] at hben
            simp [pullAttempt, pullCatch, hpop, hben, ThrownError.message]
            split_ifs <;> simp
      | error m =>
        simp [pullAttempt, pullCatch]
        split_ifs <;> simp
    · intro m hpo
      subst hpo
      simp [pullAttempt, pullCatch]
      split_ifs <;> simp
    · intro hpo hpop
      subst hpo
      simp [pullAttempt, hpop]
    · intro m hpo hpop hben
      subst hpo
      simp [pullAttempt, hpop, hben]
    · intro m hpo hpop hben hconf
      subst hpo
      have hmsg : strIncludes
          "Conflict when applying local changes after pull" "merge conflict"
          = false := by
        decide
      simp [pullAttempt, pullCatch, hpop, hben, hconf, ThrownError.message, hmsg]

/-- Witness for pull_stash_discipline: a clean working tree performs neither
stash push nor pop; a stash round-trip around a successful pull performs
exactly one of each. -/
theorem pull_stash_discipline_witness :
    ((pullAttempt ⟨false, .manual, "main", .ok (), fun _ => .ok ()⟩).2.count
        .stashPush = 0 ∧
      (pullAttempt ⟨false, .manual, "main", .ok (), fun _ => .ok ()⟩).2.count
        .stashPop = 0) ∧
    ((pullAttempt ⟨true, .manual, "main", .ok (), fun _ => .ok ()⟩).2.count
        .stashPop = 1 ∧
      (pullAttempt ⟨true, .manual, "main", .ok (), fun _ => .ok ()⟩).1 = .ok ()) :=
  ⟨(pull_stash_discipline false .manual "main" (.ok ()) (fun _ => .ok ())).1 rfl,
   ((pull_stash_discipline true .manual "main" (.ok ()) (fun _ => .ok ())).2
      rfl).2.2.1 rfl rfl⟩

/-- C7: evaluating syncBidirectional at the failing input: the tracked but
unmodified file docs/generated.md still contains the placeholder sentinel,
the broad check hasAnyPlaceholderFiles sees it (and the code logs that it
will skip commits), yet the run still commits and pushes, because the
commit guard only inspects the changed files. -/
theorem tracked_placeholder_still_commits :
    hasAnyPlaceholderFiles trackedPlaceholderEnv = true ∧
    (syncBidirectional trackedPlaceholderEnv).2.count .commitCmd = 1 ∧
    (syncBidirectional trackedPlaceholderEnv).2.count .pushCmd = 1 ∧
    (syncBidirectional trackedPlaceholderEnv).1 = .ok () := by
  decide

/-- C8 counterexample: with a configured secret, a valid-JSON GitHub request
whose signature header is shorter than the expected digest fails
verification, but the response is 400 (timingSafeEqual throws on the length
mismatch and the catch block of the handler answers Bad request), not the claimed
401. -/
theorem short_signature_gets_400 :
    shortSigRequest.sigHeader = some "sha256=00" ∧
    "sha256=00" ≠ "sha256=" ++ demoHmacHex ∧
    handleWebhook demoWebhookCfg shortSigRequest demoHmacHex [] "wh_1" =
      (⟨400, "Bad request", false⟩, .notTriggered, []) := by
  decide

/-- C8 (amended): with a non-empty secret, for GitHub requests: invalid JSON
gives 400; a correct signature gives 200 (unless the ingest queue is enabled
and full, which gives 503); a wrong signature of the correct byte length
gives 401 with no sync, as does a missing signature header; a signature
whose byte length differs from that of the digest makes timingSafeEqual throw and
the request is answered 400 with no sync.  Byte comparison is delegated to
crypto.timingSafeEqual, which is constant-time by the library contract. -/
theorem webhook_signature_responses
    (cfg : WebhookServerCfg) (req : WebhookRequest) (hmacHex freshId : String)
    (queue : List QueuedWebhook)
    (hsecret : cfg.secret ≠ "") (hgh : req.githubEventHeader = true) :
    (req.bodyParses = false →
      handleWebhook cfg req hmacHex queue freshId =
        (⟨400, "Bad request", false⟩, .notTriggered, queue)) ∧
    (req.bodyParses = true → req.sigHeader = some ("sha256=" ++ hmacHex) →
      req.shouldProcess = true →
      (cfg.queueEnabled = false ∨ queue.length < cfg.maxQueueSize) →
      (handleWebhook cfg req hmacHex queue freshId).1.status = 200) ∧
    (∀ s, req.bodyParses = true → req.sigHeader = some s →
      s.utf8ByteSize = ("sha256=" ++ hmacHex).utf8ByteSize →
      s ≠ "sha256=" ++ hmacHex →
      (handleWebhook cfg req hmacHex queue freshId).1.status = 401 ∧
      (handleWebhook cfg req hmacHex queue freshId).2.1 = .notTriggered) ∧
    (req.bodyParses = true → req.sigHeader = none →
      (handleWebhook cfg req hmacHex queue freshId).1.status = 401 ∧
      (handleWebhook cfg req hmacHex queue freshId).2.1 = .notTriggered) ∧
    (∀ s, req.bodyParses = true → req.sigHeader = some s →
      s.utf8ByteSize ≠ ("sha256=" ++ hmacHex).utf8ByteSize →
      (handleWebhook cfg req hmacHex queue freshId).1.status = 400 ∧
      (handleWebhook cfg req hmacHex queue freshId).2.1 = .notTriggered) := by
  refine ⟨?_, ?_, ?_, ?_, ?_⟩
  · intro hp
    simp [handleWebhook, hp]
  · intro hp hsig hproc hq
    rcases hq with hq | hq
    · simp [handleWebhook, hp, hsig, hproc, hq, hsecret, hgh,
        verifyGitHubSignature, timingSafeEqual]
    · simp [handleWebhook, hp, hsig, hproc, hsecret, hgh,
        verifyGitHubSignature, timingSafeEqual, WebhookQueue.enqueue,
        Nat.not_le.mpr hq]
      split_ifs <;> simp
  · intro s hp hsig hlen hne
    simp [handleWebhook, hp, hsig, hsecret, hgh,
      verifyGitHubSignature, timingSafeEqual, hlen, hne]
  · intro hp hsig
    simp [handleWebhook, hp, hsig, hsecret, hgh]
  · intro s hp hsig hlen
    simp [handleWebhook, hp, hsig, hsecret, hgh,
      verifyGitHubSignature, timingSafeEqual, hlen]

/-- Witness for webhook_signature_responses: the exact digest is accepted
with 200; the same-length digest with its first hex character tampered is
rejected with 401 and triggers no sync. -/
theorem webhook_signature_responses_witness :
    (handleWebhook demoWebhookCfg
        ⟨true, true, some ("sha256=" ++ demoHmacHex), true⟩
        demoHmacHex [] "wh_1").1.status = 200 ∧
    (handleWebhook demoWebhookCfg
        ⟨true, true, some ("sha256=" ++ ("1" ++ demoHmacHex.drop 1)), true⟩
        demoHmacHex [] "wh_1").1.status = 401 ∧
    (handleWebhook demoWebhookCfg
        ⟨true, true, some ("sha256=" ++ ("1" ++ demoHmacHex.drop 1)), true⟩
        demoHmacHex [] "wh_1").2.1 = .notTriggered :=
  have h1 := webhook_signature_responses demoWebhookCfg
    ⟨true, true, some ("sha256=" ++ demoHmacHex), true⟩ demoHmacHex "wh_1" []
    (by decide) rfl
  have h2 := webhook_signature_responses demoWebhookCfg
    ⟨true, true, some ("sha256=" ++ ("1" ++ demoHmacHex.drop 1)), true⟩
    demoHmacHex "wh_1" [] (by decide) rfl
  have hbad := h2.2.2.1 ("sha256=" ++ ("1" ++ demoHmacHex.drop 1)) rfl rfl
    (by decide) (by decide)
  ⟨h1.2.1 rfl rfl rfl (Or.inl rfl), hbad.1, hbad.2⟩

/-- C1 counterexample: the state in which the regular sync queue and the
debounced queue are each mid-execution of a Git mutation is reachable —
performSync routes debounced syncs to a distinct queue instance with its own
drain loop, so the two loops interleave. -/
theorem two_queues_both_running :
    ManagerReachable bothRunningState ∧
    mutationActive bothRunningState.syncQ ∧
    mutationActive bothRunningState.debouncedQ ∧
    performSyncQueueTarget false ≠ performSyncQueueTarget true := by
  refine ⟨?_, by simp [bothRunningState, mutationActive],
    by simp [bothRunningState, mutationActive], by decide⟩
  have r1 : ManagerReachable
      ⟨⟨["sync-1700000000000"], false, 0, none⟩, DrainState.initial⟩ :=
    Relation.ReflTransGen.single
      (ManagerStep.syncStep _ _ (QueueStep.enqueue _ "sync-1700000000000"))
  have r2 : ManagerReachable
      ⟨⟨["sync-1700000000000"], true, 1, none⟩, DrainState.initial⟩ :=
    r1.tail (ManagerStep.syncStep _ _ (QueueStep.beginProcess _ rfl (by simp)))
  have r3 : ManagerReachable
      ⟨⟨[], true, 1, some "sync-1700000000000"⟩, DrainState.initial⟩ :=
    r2.tail (ManagerStep.syncStep _ _
      (QueueStep.startOp _ "sync-1700000000000" [] (by decide) rfl rfl))
  have r4 : ManagerReachable
      ⟨⟨[], true, 1, some "sync-1700000000000"⟩,
        ⟨["debounced-sync"], false, 0, none⟩⟩ :=
    r3.tail (ManagerStep.debouncedStep _ _ (QueueStep.enqueue _ "debounced-sync"))
  have r5 : ManagerReachable
      ⟨⟨[], true, 1, some "sync-1700000000000"⟩,
        ⟨["debounced-sync"], true, 1, none⟩⟩ :=
    r4.tail (ManagerStep.debouncedStep _ _
      (QueueStep.beginProcess _ rfl (by simp)))
  exact r5.tail (ManagerStep.debouncedStep _ _
    (QueueStep.startOp _ "debounced-sync" [] (by decide) rfl rfl))

theorem DrainInv_step (d d2 : DrainState) (h : QueueStep d d2)
    (hinv : DrainInv d) : DrainInv d2 := by
  obtain ⟨hpl, hle, hcur⟩ := hinv
  cases h with
  | enqueue id => exact ⟨hpl, hle, hcur⟩
  | beginProcess hp hq =>
    have hne1 : ¬ (d.loops = 1) := fun h1 => by
      rw [hpl.mpr h1] at hp
      exact Bool.true_eq_false.mp hp
    have hl0 : d.loops = 0 := by omega
    refine ⟨by simp [hl0], by dsimp only; omega, ?_⟩
    intro hs
    have := hcur hs
    dsimp only
    omega
  | startOp id rest hl hc hq =>
    exact ⟨hpl, hle, fun _ => by dsimp only; omega⟩
  | finishOp id hc =>
    exact ⟨hpl, hle, fun hs => by simp at hs⟩
  | exitLoop hl hc hq =>
    have hl1 : d.loops = 1 := by omega
    refine ⟨by simp [hl1], by dsimp only; omega, ?_⟩
    intro hs
    rw [hc] at hs
    simp at hs

/-- C1 (amended): each SyncQueue instance is strictly sequential — in every
reachable manager state each queue has at most one active drain loop, the
processing flag tracks it exactly, and an operation only executes inside
that single loop.  At most one Git mutation runs at a time per queue
instance; but since performSync routes debounced syncs to the separate
DebouncedSyncQueue instance, mutations of the two instances may overlap
(see the counterexample). -/
theorem per_queue_single_drain_loop (s : ManagerState)
    (h : ManagerReachable s) :
    DrainInv s.syncQ ∧ DrainInv s.debouncedQ := by
  induction h with
  | refl =>
    constructor <;>
      exact ⟨by simp [ManagerState.initial, DrainState.initial],
        by simp [ManagerState.initial, DrainState.initial],
        by simp [ManagerState.initial, DrainState.initial]⟩
  | tail hsteps hstep ih =>
    cases hstep with
    | syncStep q hq => exact ⟨DrainInv_step _ _ hq ih.1, ih.2⟩
    | debouncedStep q hq => exact ⟨ih.1, DrainInv_step _ _ hq ih.2⟩

/-- Witness for per_queue_single_drain_loop at the initial manager state. -/
theorem per_queue_single_drain_loop_witness :
    DrainInv ManagerState.initial.syncQ ∧
    DrainInv ManagerState.initial.debouncedQ :=
  per_queue_single_drain_loop ManagerState.initial Relation.ReflTransGen.refl

end GitDocsSync
